import Mathlib

/-
Verification of the snooker physics/rules engine (Game.js, ScoreManager.js,
BallManager.js, Table.js) against its natural-language specification.

Coordinates and distances are modelled over ℚ, reading the source's
JavaScript number arithmetic as exact real arithmetic.  The source compares
Euclidean distances (`dist`, a square root) against nonnegative thresholds;
the embedding compares squared distances against squared thresholds, which
is equivalent for nonnegative quantities and keeps every definition
executable.
-/

namespace Snooker

/-- Squared Euclidean distance between two points, embedding the source's
use of p5's dist plus the explicit `dx*dx + dy*dy` in
Game.isValidCueBallPosition. -/
def dist2 (x1 y1 x2 y2 : ℚ) : ℚ :=
  (x2 - x1) * (x2 - x1) + (y2 - y1) * (y2 - y1)

/-- A ball record, from the Ball class (Table.js lines 520-554): stable id,
colour name, position in game units (the x/y getters), and the potted flag.
The Matter.js body exists exactly while the ball is not potted
(Game.handleBallPotted removes it, Game.respotColoredBall recreates it), so
body existence is represented by the isPotted flag together with the
position. -/
structure Ball where
  id : String
  colorName : String
  x : ℚ
  y : ℚ
  isPotted : Bool
deriving DecidableEq, Repr

/-- Minimum separation used by BallManager.isValidPosition (line 209):
5.0 game units, slightly more than the ball diameter 4.944. -/
def minDistance : ℚ := 5.0

/-- BallManager.isValidPosition (BallManager.js lines 208-219): a position
is valid when no ball in the list lies strictly closer than minDistance.
The source loops over `this.balls` with no isPotted filter, so potted balls
participate.  The source's `dist(x, y, ball.x, ball.y) < minDistance` is
compared squared. -/
def isValidPosition (balls : List Ball) (x y : ℚ) : Bool :=
  balls.all fun ball => ! decide (dist2 x y ball.x ball.y < minDistance * minDistance)

/-- D radius from Game.isValidCueBallPosition (line 792). -/
def dRadius : ℚ := 14.5

/-- Baulk line x-coordinate, also the D-center x (line 793-794). -/
def baulkLine : ℚ := 44.5

/-- D-center y-coordinate: half the table height 89 (line 795). -/
def dCenterY : ℚ := 44.5

/-- Game.isValidCueBallPosition (Game.js lines 790-809): inside the D
semicircle (distance to D-center at most dRadius and x at most the baulk
line) and, in addition, the position must pass
BallManager.isValidPosition.  Distance compared squared. -/
def isValidCueBallPosition (balls : List Ball) (x y : ℚ) : Bool :=
  let dx := x - baulkLine
  let dy := y - dCenterY
  if dx * dx + dy * dy ≤ dRadius * dRadius ∧ x ≤ baulkLine then
    isValidPosition balls x y
  else
    false

/-- The pocket capture radius from Table.js line 15. -/
def pocketRadius : ℚ := 3.708

/-- The two things the pocket loop body of Game.checkPottedBalls can do to
a ball for one pocket: apply the attraction impulse plus extra velocity
damping, or capture (pot) the ball. -/
inductive PocketAction where
  | attract
  | capture
deriving DecidableEq, Repr

/-- The loop body of Game.checkPottedBalls (Game.js lines 826-853) for one
non-potted ball and one pocket, given the ball-center-to-pocket-center
distance d and the pocket radius r, as the ordered list of actions taken:
first the attraction test `d < r * 2.2 && d > r * 0.3` (lines 830-846),
then the capture test `d < r * 0.85` (lines 849-852). -/
def pocketActions (d r : ℚ) : List PocketAction :=
  (if d < r * 2.2 ∧ d > r * 0.3 then [PocketAction.attract] else []) ++
  (if d < r * 0.85 then [PocketAction.capture] else [])

/-- Events stored in ScoreManager.recentEvents (ScoreManager.js addEvent
call sites).  The wall-clock `time` field (Date.now based, display only) is
omitted. -/
inductive GameEvent where
  | pot (color : String) (points : Nat) (player : Nat)
  | foul (reason : String) (player : Nat) (penaltyPoints : Nat)
  | turnChange (player : Nat)
deriving DecidableEq, Repr

/-- The per-colour potted counters, ScoreManager.js stats.ballsPotted. -/
structure PottedCounts where
  red : Nat
  yellow : Nat
  green : Nat
  brown : Nat
  blue : Nat
  pink : Nat
  black : Nat
  total : Nat
deriving DecidableEq, Repr

/-- ScoreManager.stats (ScoreManager.js lines 13-31), without the
wall-clock gameTime/gameStartTime fields (display only). -/
structure Stats where
  totalShots : Nat
  successfulShots : Nat
  fouls : Nat
  highestBreak : Nat
  currentBreak : Nat
  ballsPotted : PottedCounts
deriving DecidableEq, Repr

/-- ScoreManager.currentShot (ScoreManager.js lines 34-39). -/
structure Shot where
  ballsHit : List String
  ballsPotted : List String
  cushionsHit : Nat
  isValid : Bool
deriving DecidableEq, Repr

/-- The ScoreManager state (ScoreManager.js constructor). -/
structure ScoreManager where
  player1Score : Nat
  player2Score : Nat
  currentPlayer : Nat
  stats : Stats
  currentShot : Shot
  recentEvents : List GameEvent
deriving DecidableEq, Repr

/-- maxRecentEvents (ScoreManager.js line 43). -/
def maxRecentEvents : Nat := 5

/-- ScoreManager.addEvent (lines 191-196): unshift the event, then pop the
oldest when the list exceeds maxRecentEvents. -/
def addEvent (s : ScoreManager) (e : GameEvent) : ScoreManager :=
  let l := e :: s.recentEvents
  { s with recentEvents := if maxRecentEvents < l.length then l.dropLast else l }

/-- ScoreManager.switchPlayer (lines 179-186): toggle currentPlayer between
1 and 2, then record a turnChange event carrying the new player. -/
def switchPlayer (s : ScoreManager) : ScoreManager :=
  let s1 : ScoreManager := { s with currentPlayer := if s.currentPlayer = 1 then 2 else 1 }
  addEvent s1 (GameEvent.turnChange s1.currentPlayer)

/-- Snooker ball point values, ScoreManager.ballValues (lines 46-54);
the JS lookup yields undefined, read as 0, for any other colour. -/
def ballValues (c : String) : Nat :=
  match c with
  | "red" => 1
  | "yellow" => 2
  | "green" => 3
  | "brown" => 4
  | "blue" => 5
  | "pink" => 6
  | "black" => 7
  | _ => 0

/-- The keyed-counter bump in ScoreManager.recordBallPotted (lines 94-96):
increment the counter only when the key exists on stats.ballsPotted. -/
def bumpPotted (p : PottedCounts) (c : String) : PottedCounts :=
  match c with
  | "red" => { p with red := p.red + 1 }
  | "yellow" => { p with yellow := p.yellow + 1 }
  | "green" => { p with green := p.green + 1 }
  | "brown" => { p with brown := p.brown + 1 }
  | "blue" => { p with blue := p.blue + 1 }
  | "pink" => { p with pink := p.pink + 1 }
  | "black" => { p with black := p.black + 1 }
  | "total" => { p with total := p.total + 1 }
  | _ => p

/-- ScoreManager.recordBallPotted (lines 90-127): push the colour on the
current shot, bump the per-colour and total counters, award the ball value
to the current player when positive, grow the break (updating the highest
break), and record a pot event. -/
def recordBallPotted (s : ScoreManager) (c : String) : ScoreManager :=
  let s1 : ScoreManager :=
    { s with currentShot := { s.currentShot with ballsPotted := s.currentShot.ballsPotted ++ [c] },
             stats := { s.stats with ballsPotted :=
               let p := bumpPotted s.stats.ballsPotted c
               { p with total := p.total + 1 } } }
  let points := ballValues c
  let s2 : ScoreManager :=
    if 0 < points then
      let sa : ScoreManager :=
        if s1.currentPlayer = 1 then { s1 with player1Score := s1.player1Score + points }
        else { s1 with player2Score := s1.player2Score + points }
      let sb : ScoreManager :=
        { sa with stats := { sa.stats with currentBreak := sa.stats.currentBreak + points } }
      if sb.stats.highestBreak < sb.stats.currentBreak then
        { sb with stats := { sb.stats with highestBreak := sb.stats.currentBreak } }
      else sb
    else s1
  addEvent s2 (GameEvent.pot c points s2.currentPlayer)

/-- ScoreManager.recordFoul (lines 132-160): bump the foul counter, zero
the break, invalidate the shot, award max 4 penaltyPoints to the opponent
of the current player, record the foul event, and switch players. -/
def recordFoul (s : ScoreManager) (reason : String) (penaltyPoints : Nat) : ScoreManager :=
  let s1 : ScoreManager :=
    { s with stats := { s.stats with fouls := s.stats.fouls + 1, currentBreak := 0 },
             currentShot := { s.currentShot with isValid := false } }
  let penalty := max 4 penaltyPoints
  let opponent := if s1.currentPlayer = 1 then 2 else 1
  let s2 : ScoreManager :=
    if opponent = 1 then { s1 with player1Score := s1.player1Score + penalty }
    else { s1 with player2Score := s1.player2Score + penalty }
  let s3 := addEvent s2 (GameEvent.foul reason s2.currentPlayer penalty)
  switchPlayer s3

/-- ScoreManager.endShot (lines 165-174): one potted ball and a valid shot
count as a successful shot; no potted ball switches players and zeroes the
break; a potted ball on an invalid shot does neither. -/
def endShot (s : ScoreManager) : ScoreManager :=
  if 0 < s.currentShot.ballsPotted.length ∧ s.currentShot.isValid then
    { s with stats := { s.stats with successfulShots := s.stats.successfulShots + 1 } }
  else if s.currentShot.ballsPotted.length = 0 then
    let s1 := switchPlayer s
    { s1 with stats := { s1.stats with currentBreak := 0 } }
  else s

/-- ScoreManager.startNewShot (lines 60-69). -/
def startNewShot (s : ScoreManager) : ScoreManager :=
  { s with currentShot := { ballsHit := [], ballsPotted := [], cushionsHit := 0, isValid := true },
           stats := { s.stats with totalShots := s.stats.totalShots + 1 } }

/-- The ScoreManager constructor state (lines 6-55), wall-clock fields
omitted. -/
def initScoreManager : ScoreManager :=
  { player1Score := 0, player2Score := 0, currentPlayer := 1,
    stats := { totalShots := 0, successfulShots := 0, fouls := 0, highestBreak := 0,
               currentBreak := 0,
               ballsPotted := { red := 0, yellow := 0, green := 0, brown := 0, blue := 0,
                                pink := 0, black := 0, total := 0 } },
    currentShot := { ballsHit := [], ballsPotted := [], cushionsHit := 0, isValid := true },
    recentEvents := [] }

/-- The rule-relevant Game state (Game.js constructor lines 17-29): the
ball list, the ScoreManager, the consecutive-coloured-pot counter, the
colour of the last potted ball (only lastPottedBall.colorName is ever read,
line 879), and the cue-ball-placement-pending flag. -/
structure GameState where
  balls : List Ball
  scoreManager : ScoreManager
  consecutiveColoredPotted : Nat
  lastPottedColor : Option String
  isPlacingCueBall : Bool
deriving DecidableEq, Repr

/-- The fixed respot spots of Game.respotColoredBall (lines 922-929). -/
def respotSpots (c : String) : Option (ℚ × ℚ) :=
  match c with
  | "yellow" => some (44.5, 55.625)
  | "green" => some (44.5, 33.375)
  | "brown" => some (44.5, 44.5)
  | "blue" => some (89, 44.5)
  | "pink" => some (141, 44.5)
  | "black" => some (164, 44.5)
  | _ => none

/-- Game.respotColoredBall (lines 920-958): when the potted ball's colour
has a spot and the spot passes BallManager.isValidPosition over the current
ball list, clear the ball's potted flag and move it to the spot (the source
recreates the Matter body there); otherwise leave the state unchanged.
(The collisionReports UI string is omitted.) -/
def respotColoredBall (g : GameState) (b : Ball) : GameState :=
  match respotSpots b.colorName with
  | none => g
  | some (sx, sy) =>
    if isValidPosition g.balls sx sy then
      { g with balls := g.balls.map fun bl =>
          if bl.id == b.id then { bl with isPotted := false, x := sx, y := sy } else bl }
    else g

/-- The potted-flag write `ball.isPotted = true` of Game.handleBallPotted
line 862, applied to the ball list entry with the given id. -/
def markPotted (balls : List Ball) (i : String) : List Ball :=
  balls.map fun bl => if bl.id == i then { bl with isPotted := true } else bl

/-- Game.handleBallPotted (lines 860-898): mark the ball potted (its body
is removed from the world), record the pot for every non-white colour,
then run the colour-specific branch: a non-red non-white colour updates
the consecutive-coloured-pot counter (foul when it reaches 2) and is
respotted; a red resets the counter; the white flags cue-ball placement
and records a foul.  Finally remember the ball as the last potted one. -/
def handleBallPotted (g : GameState) (b : Ball) : GameState :=
  let g1 : GameState := { g with balls := markPotted g.balls b.id }
  let g2 : GameState :=
    if b.colorName ≠ "white" then
      { g1 with scoreManager := recordBallPotted g1.scoreManager b.colorName }
    else g1
  let g3 : GameState :=
    if b.colorName ≠ "red" ∧ b.colorName ≠ "white" then
      let ga : GameState :=
        match g2.lastPottedColor with
        | some lc =>
          if lc ≠ "red" ∧ lc ≠ "white" then
            let gb : GameState :=
              { g2 with consecutiveColoredPotted := g2.consecutiveColoredPotted + 1 }
            if 2 ≤ gb.consecutiveColoredPotted then
              { gb with scoreManager :=
                  recordFoul gb.scoreManager "Two consecutive colored balls potted" 4 }
            else gb
          else { g2 with consecutiveColoredPotted := 1 }
        | none => { g2 with consecutiveColoredPotted := 1 }
      respotColoredBall ga b
    else if b.colorName = "red" then
      { g2 with consecutiveColoredPotted := 0 }
    else if b.colorName = "white" then
      let gw : GameState := { g2 with isPlacingCueBall := true }
      { gw with scoreManager := recordFoul gw.scoreManager "Cue ball potted" 4 }
    else g2
  { g3 with lastPottedColor := some b.colorName }

/-- One delivery of a capture event for the ball with id i, through the
per-ball guard of Game.checkPottedBalls line 819 (`if (ball.isPotted)
continue`): an id already marked potted is skipped entirely, otherwise
Game.handleBallPotted runs. -/
def deliverPot (g : GameState) (i : String) : GameState :=
  match g.balls.find? (fun bl => bl.id == i) with
  | some b => if b.isPotted then g else handleBallPotted g b
  | none => g

/-- Standard ball radius (BallManager.js line 31). -/
def ballRadius : ℚ := 2.472

/-- Standard ball diameter (BallManager.js line 172). -/
def ballDiameter : ℚ := 4.944

/-- Red-triangle spacing (BallManager.js line 32). -/
def spacing : ℚ := ballRadius * 2.05

/-- A freshly created, non-potted ball (the Ball constructor). -/
def mkBall (x y : ℚ) (colorName i : String) : Ball :=
  { id := i, colorName := colorName, x := x, y := y, isPotted := false }

/-- Red apex x-coordinate (BallManager.js lines 29, 171). -/
def redApexX : ℚ := 130

/-- Pink layout x-coordinate: one ball diameter left of the red apex
(BallManager.js line 173). -/
def pinkLayoutX : ℚ := redApexX - ballDiameter

/-- BallManager.addColoredBalls (lines 168-180): the six colours at their
layout coordinates, in source call order. -/
def coloredBallsLayout : List Ball :=
  [ mkBall pinkLayoutX 44.5 "pink" "pink",
    mkBall 89 44.5 "blue" "blue",
    mkBall 44.5 44.5 "brown" "brown",
    mkBall 44.5 33.375 "green" "green",
    mkBall 44.5 55.625 "yellow" "yellow",
    mkBall 164 44.5 "black" "black" ]

/-- Position of the red in a given row and column of the triangle
(BallManager.js lines 36-40). -/
def redPosition (row col : Nat) : ℚ × ℚ :=
  (redApexX + (row : ℚ) * spacing * 0.866,
   44.5 + ((col : ℚ) - (row : ℚ) / 2) * spacing)

/-- The (row, col) pairs of the red triangle in the source's nested loop
order (BallManager.js lines 36-41). -/
def redRowCols : List (Nat × Nat) :=
  (List.range 5).flatMap fun row => (List.range (row + 1)).map fun col => (row, col)

/-- The fifteen reds of setupStartingPositions, ids red0..red14 in loop
order (the running ballIndex of BallManager.js line 35). -/
def triangleReds : List Ball :=
  redRowCols.enum.map fun p =>
    mkBall (redPosition p.2.1 p.2.2).1 (redPosition p.2.1 p.2.2).2 "red" ("red" ++ toString p.1)

/-- BallManager.addCueBall (lines 185-195): filter out any existing cue
record, then push a fresh white cue ball. -/
def addCueBall (balls : List Ball) (x y : ℚ) : List Ball :=
  (balls.filter fun b => ! (b.id == "cue")) ++ [mkBall x y "white" "cue"]

/-- BallManager.setupStartingPositions (lines 16-59): clear the list, add
the cue ball at (30, 44.5) only when requested, then the triangle reds,
then the colours.  (The transient isSensor settle phase only zeroes
velocities, which the record model does not carry.) -/
def setupStartingPositions (addCue : Bool) : List Ball :=
  let balls : List Ball := []
  let balls := if addCue then addCueBall balls 30 44.5 else balls
  balls ++ triangleReds ++ coloredBallsLayout

/-- The layout coordinate a colour occupies after addColoredBalls, looked
up from the layout list itself. -/
def layoutSpot (c : String) : Option (ℚ × ℚ) :=
  (coloredBallsLayout.find? fun b => b.colorName == c).map fun b => (b.x, b.y)

/-- Number of cue records in a ball list. -/
def cueRecordCount (balls : List Ball) : Nat :=
  (balls.filter fun b => b.id == "cue").length

/-- Spec-side D-zone predicate, written from the spec sentence for claim
C2: distance from (x, y) to the D-center at most dRadius and x at most the
baulk line, with no other condition (distance compared squared). -/
def isInDZoneSpec (x y : ℚ) : Prop :=
  (x - baulkLine) * (x - baulkLine) + (y - dCenterY) * (y - dCenterY) ≤ dRadius * dRadius ∧
  x ≤ baulkLine

/-- Spec-side placement predicate, written from the spec sentence for claim
C8: the distance from (x, y) to every active (non-potted) ball center
exceeds the minimum separation; potted balls do not participate. -/
def isValidPlacementSpec (balls : List Ball) (x y : ℚ) : Prop :=
  ∀ b ∈ balls, b.isPotted = false → minDistance * minDistance < dist2 x y b.x b.y

/-- A potted-and-not-yet-respotted pink ball resting at a pocket mouth. -/
def pottedPink : Ball :=
  { id := "pink", colorName := "pink", x := 10, y := 10, isPotted := true }

/-- A game state whose only ball is the potted pink. -/
def gPink : GameState :=
  { balls := [pottedPink], scoreManager := initScoreManager,
    consecutiveColoredPotted := 0, lastPottedColor := some "pink",
    isPlacingCueBall := false }

/-- C1, counterexample.  At distance 2 from a pocket of the table's capture
radius 3.708, the ball is inside the tight capture radius (2 < 3.1518),
yet the loop body applies the attraction impulse and damping first: the
action list is [attract, capture], so capture does not precede
attraction. -/
theorem C1_counterexample :
    (2 : ℚ) < pocketRadius * 0.85 ∧
    pocketActions 2 pocketRadius = [PocketAction.attract, PocketAction.capture] ∧
    (pocketActions 2 pocketRadius).head? ≠ some PocketAction.capture := by
  have hl : pocketActions 2 pocketRadius = [PocketAction.attract, PocketAction.capture] := by
    norm_num [pocketActions, pocketRadius]
  refine ⟨by norm_num [pocketRadius], hl, by rw [hl]; decide⟩

/-- C1, amended.  A ball whose distance to a pocket center is below 0.85
times the capture radius is captured during the tick, but the attraction
test runs before the capture test: when the distance also exceeds 0.3
times the capture radius, the ball receives the attraction impulse and
extra velocity damping first, and only a ball at distance at most 0.3
times the capture radius is captured without attraction. -/
theorem C1_capture_after_attraction (d r : ℚ) (hr : 0 < r) (h : d < r * 0.85) :
    PocketAction.capture ∈ pocketActions d r ∧
    pocketActions d r =
      (if d > r * 0.3 then [PocketAction.attract, PocketAction.capture]
       else [PocketAction.capture]) := by
  have h22 : d < r * 2.2 := by nlinarith
  unfold pocketActions
  by_cases h03 : d > r * 0.3
  · rw [if_pos ⟨h22, h03⟩, if_pos h, if_pos h03]
    exact ⟨by decide, rfl⟩
  · rw [if_neg (fun hc => h03 hc.2), if_pos h, if_neg h03]
    exact ⟨by decide, rfl⟩

/-- C1, witness at the concrete counter-input: distance 2, radius 3.708. -/
theorem C1_capture_after_attraction_witness :
    PocketAction.capture ∈ pocketActions 2 pocketRadius ∧
    pocketActions 2 pocketRadius =
      (if (2 : ℚ) > pocketRadius * 0.3 then [PocketAction.attract, PocketAction.capture]
       else [PocketAction.capture]) :=
  C1_capture_after_attraction 2 pocketRadius (by norm_num [pocketRadius])
    (by norm_num [pocketRadius])

/-- C2, counterexample.  The point (30, 44.5) lies inside the D semicircle
and on the baulk side, yet isValidCueBallPosition rejects it when a ball
already occupies that point: the occupancy check is a further condition. -/
theorem C2_counterexample :
    isValidCueBallPosition [mkBall 30 44.5 "red" "red0"] 30 44.5 = false ∧
    isInDZoneSpec 30 44.5 := by
  constructor
  · norm_num [isValidCueBallPosition, isValidPosition, dist2, minDistance, dRadius,
      baulkLine, dCenterY, mkBall]
  · constructor <;> norm_num [dRadius, baulkLine, dCenterY]

/-- C2, amended.  The cue-ball placement predicate holds iff the point is
in the D semicircle (distance to D-center at most dRadius and x at most
the baulk line) and, additionally, BallManager.isValidPosition accepts the
point over the current ball list. -/
theorem C2_cue_placement (balls : List Ball) (x y : ℚ) :
    isValidCueBallPosition balls x y = true ↔
      isInDZoneSpec x y ∧ isValidPosition balls x y = true := by
  unfold isValidCueBallPosition isInDZoneSpec
  dsimp only
  split
  next h => simp [h]
  next h => simp [h]

/-- C8, counterexample.  A list holding one potted ball at (50, 50): the
spec-side predicate (active balls only) accepts the point (50, 50), but
BallManager.isValidPosition iterates over potted balls too and rejects
it. -/
theorem C8_counterexample :
    isValidPosition [{ id := "red0", colorName := "red", x := 50, y := 50, isPotted := true }]
      50 50 = false ∧
    isValidPlacementSpec
      [{ id := "red0", colorName := "red", x := 50, y := 50, isPotted := true }] 50 50 := by
  constructor
  · norm_num [isValidPosition, dist2, minDistance]
  · intro b hb hp
    simp only [List.mem_singleton] at hb
    subst hb
    exact absurd hp (by decide)

/-- C8, amended.  isValidPosition holds iff the squared distance from the
point to every ball in the list, potted balls included, is at least the
squared minimum separation 5.0. -/
theorem C8_placement_validity (balls : List Ball) (x y : ℚ) :
    isValidPosition balls x y = true ↔
      ∀ b ∈ balls, minDistance * minDistance ≤ dist2 x y b.x b.y := by
  simp [isValidPosition, List.all_eq_true, not_lt]

/-- C9, counterexample.  Game.initializeGame runs
setupStartingPositions(false): the resulting ball list holds no cue record
at all while cue-ball placement is pending, so a reachable state exists
with zero, not exactly one, cue records. -/
theorem C9_counterexample :
    cueRecordCount (setupStartingPositions false) = 0 ∧
    cueRecordCount (setupStartingPositions false) ≠ 1 := by
  decide

/-- Filtering away the cue id leaves no cue records. -/
lemma cueRecordCount_filter_not_cue (l : List Ball) :
    cueRecordCount (l.filter fun b => ! (b.id == "cue")) = 0 := by
  induction l with
  | nil => rfl
  | cons a l ih =>
    by_cases ha : a.id = "cue"
    · simp only [cueRecordCount, List.filter_cons, ha] at ih ⊢
      simp [ih]
    · simp only [cueRecordCount, List.filter_cons] at ih ⊢
      simp [ha, ih]

/-- C9, amended.  addCueBall always leaves exactly one cue record (it
removes any pre-existing cue record first, so placement is idempotent and
never creates a second), but a layout leaves one cue record only when
called with addCueBall = true: with addCueBall = false, as in
Game.initializeGame, it leaves zero while placement is pending. -/
theorem C9_cue_record_count (balls : List Ball) (x y : ℚ) (addCue : Bool) :
    cueRecordCount (addCueBall balls x y) = 1 ∧
    cueRecordCount (setupStartingPositions addCue) = (if addCue then 1 else 0) := by
  constructor
  · have h0 := cueRecordCount_filter_not_cue balls
    simp only [addCueBall, cueRecordCount, List.filter_append, List.length_append] at h0 ⊢
    simp_all [cueRecordCount, mkBall]
  · cases addCue <;> decide

/-- addEvent leaves the head of the log at the event just added. -/
lemma addEvent_head (s : ScoreManager) (e : GameEvent) :
    ∃ t, (addEvent s e).recentEvents = e :: t := by
  unfold addEvent
  dsimp only
  split
  next hlen =>
    cases h : s.recentEvents with
    | nil => rw [h] at hlen; simp [maxRecentEvents] at hlen
    | cons a t => exact ⟨(a :: t).dropLast, rfl⟩
  next => exact ⟨s.recentEvents, rfl⟩

/-- An event sitting directly under the head of the log survives one more
addEvent: the length cap only ever drops the oldest entry. -/
lemma mem_addEvent_of_head (s : ScoreManager) (x e : GameEvent) (t : List GameEvent)
    (h : s.recentEvents = x :: t) : x ∈ (addEvent s e).recentEvents := by
  unfold addEvent
  dsimp only
  split
  next hlen =>
    rw [h] at hlen ⊢
    cases t with
    | nil => simp [maxRecentEvents] at hlen
    | cons a t2 => simp [List.dropLast]
  next =>
    rw [h]
    exact List.mem_cons_of_mem _ (List.mem_cons_self _ _)

/-- switchPlayer component description: it toggles currentPlayer between 1
and 2 and records a turnChange event; everything else is untouched. -/
lemma switchPlayer_proj (s : ScoreManager) :
    (switchPlayer s).player1Score = s.player1Score ∧
    (switchPlayer s).player2Score = s.player2Score ∧
    (switchPlayer s).currentPlayer = (if s.currentPlayer = 1 then 2 else 1) ∧
    (switchPlayer s).stats = s.stats ∧
    (switchPlayer s).currentShot = s.currentShot :=
  ⟨rfl, rfl, rfl, rfl, rfl⟩

/-- recordFoul score movement when player 1 is current: the penalty goes
to player 2 and player 1's score is untouched. -/
lemma recordFoul_scores_cp1 (s : ScoreManager) (r : String) (p : Nat)
    (h : s.currentPlayer = 1) :
    (recordFoul s r p).player2Score = s.player2Score + max 4 p ∧
    (recordFoul s r p).player1Score = s.player1Score := by
  unfold recordFoul switchPlayer addEvent
  simp [h]

/-- recordFoul score movement when player 1 is not current: the penalty
goes to player 1 and player 2's score is untouched. -/
lemma recordFoul_scores_cp2 (s : ScoreManager) (r : String) (p : Nat)
    (h : ¬ s.currentPlayer = 1) :
    (recordFoul s r p).player1Score = s.player1Score + max 4 p ∧
    (recordFoul s r p).player2Score = s.player2Score := by
  unfold recordFoul switchPlayer addEvent
  simp [h]

/-- recordFoul switches the current player exactly once. -/
lemma recordFoul_currentPlayer (s : ScoreManager) (r : String) (p : Nat) :
    (recordFoul s r p).currentPlayer = (if s.currentPlayer = 1 then 2 else 1) := by
  unfold recordFoul switchPlayer addEvent
  by_cases h : s.currentPlayer = 1 <;> simp [h]

/-- recordFoul statistics: foul counter up one, break zeroed, shot marked
invalid. -/
lemma recordFoul_stats (s : ScoreManager) (r : String) (p : Nat) :
    (recordFoul s r p).stats.currentBreak = 0 ∧
    (recordFoul s r p).stats.fouls = s.stats.fouls + 1 ∧
    (recordFoul s r p).currentShot.isValid = false := by
  unfold recordFoul switchPlayer addEvent
  by_cases h : s.currentPlayer = 1 <;> simp [h]

/-- An event added just before a switchPlayer is still in the log after
it. -/
lemma mem_switchPlayer_addEvent (s : ScoreManager) (e : GameEvent) :
    e ∈ (switchPlayer (addEvent s e)).recentEvents := by
  obtain ⟨t, ht⟩ := addEvent_head s e
  unfold switchPlayer
  exact mem_addEvent_of_head _ _ _ t ht

/-- recordFoul puts the foul event in the log, under the turnChange event
added by the final switchPlayer. -/
lemma recordFoul_foul_mem (s : ScoreManager) (r : String) (p : Nat) :
    GameEvent.foul r s.currentPlayer (max 4 p) ∈ (recordFoul s r p).recentEvents := by
  unfold recordFoul
  dsimp only
  by_cases h : s.currentPlayer = 1 <;>
    simp only [h, if_true, if_false] <;>
    exact mem_switchPlayer_addEvent _ _

/-- C3, confirmed.  recordFoul adds exactly max(4, penalty) points to the
score of the opponent of the player current at the moment of the call
(leaving the caller's score unchanged), resets the current break to 0,
marks the current shot invalid, switches the current player exactly once,
and appends a foul event to the log. -/
theorem C3_recordFoul_contract (s : ScoreManager) (reason : String) (penalty : Nat) :
    (s.currentPlayer = 1 →
      (recordFoul s reason penalty).player2Score = s.player2Score + max 4 penalty ∧
      (recordFoul s reason penalty).player1Score = s.player1Score) ∧
    (s.currentPlayer = 2 →
      (recordFoul s reason penalty).player1Score = s.player1Score + max 4 penalty ∧
      (recordFoul s reason penalty).player2Score = s.player2Score) ∧
    (recordFoul s reason penalty).stats.currentBreak = 0 ∧
    (recordFoul s reason penalty).currentShot.isValid = false ∧
    (recordFoul s reason penalty).currentPlayer = (if s.currentPlayer = 1 then 2 else 1) ∧
    GameEvent.foul reason s.currentPlayer (max 4 penalty) ∈
      (recordFoul s reason penalty).recentEvents :=
  ⟨fun h => recordFoul_scores_cp1 s reason penalty h,
   fun h => recordFoul_scores_cp2 s reason penalty (by rw [h]; exact (by decide)),
   (recordFoul_stats s reason penalty).1,
   (recordFoul_stats s reason penalty).2.2,
   recordFoul_currentPlayer s reason penalty,
   recordFoul_foul_mem s reason penalty⟩

/-- C3 at a concrete input: player 1 current, penalty 10. -/
theorem C3_recordFoul_contract_witness :
    (initScoreManager.currentPlayer = 1 →
      (recordFoul initScoreManager "Cue ball potted" 10).player2Score =
        initScoreManager.player2Score + max 4 10 ∧
      (recordFoul initScoreManager "Cue ball potted" 10).player1Score =
        initScoreManager.player1Score) ∧
    (initScoreManager.currentPlayer = 2 →
      (recordFoul initScoreManager "Cue ball potted" 10).player1Score =
        initScoreManager.player1Score + max 4 10 ∧
      (recordFoul initScoreManager "Cue ball potted" 10).player2Score =
        initScoreManager.player2Score) ∧
    (recordFoul initScoreManager "Cue ball potted" 10).stats.currentBreak = 0 ∧
    (recordFoul initScoreManager "Cue ball potted" 10).currentShot.isValid = false ∧
    (recordFoul initScoreManager "Cue ball potted" 10).currentPlayer =
      (if initScoreManager.currentPlayer = 1 then 2 else 1) ∧
    GameEvent.foul "Cue ball potted" initScoreManager.currentPlayer (max 4 10) ∈
      (recordFoul initScoreManager "Cue ball potted" 10).recentEvents :=
  C3_recordFoul_contract initScoreManager "Cue ball potted" 10

/-- C4, confirmed.  endShot with zero potted balls switches the current
player and resets the break; with at least one potted ball on a valid
shot it increments the successful-shot counter and leaves the current
player unchanged, whatever the number of potted balls. -/
theorem C4_endShot_contract (s : ScoreManager) :
    (s.currentShot.ballsPotted = [] →
      (endShot s).currentPlayer = (if s.currentPlayer = 1 then 2 else 1) ∧
      (endShot s).stats.currentBreak = 0) ∧
    (s.currentShot.ballsPotted ≠ [] → s.currentShot.isValid = true →
      (endShot s).stats.successfulShots = s.stats.successfulShots + 1 ∧
      (endShot s).currentPlayer = s.currentPlayer) := by
  constructor
  · intro h
    unfold endShot
    rw [if_neg (by simp [h]), if_pos (by simp [h])]
    exact ⟨(switchPlayer_proj s).2.2.1, rfl⟩
  · intro h hv
    unfold endShot
    rw [if_pos ⟨by simpa [List.length_pos] using h, hv⟩]
    exact ⟨rfl, rfl⟩

/-- C4 at concrete inputs: the fresh state (no potted ball) and a state
where one red was just potted on a valid shot. -/
theorem C4_endShot_contract_witness :
    ((endShot initScoreManager).currentPlayer =
        (if initScoreManager.currentPlayer = 1 then 2 else 1) ∧
      (endShot initScoreManager).stats.currentBreak = 0) ∧
    ((endShot (recordBallPotted initScoreManager "red")).stats.successfulShots =
        (recordBallPotted initScoreManager "red").stats.successfulShots + 1 ∧
      (endShot (recordBallPotted initScoreManager "red")).currentPlayer =
        (recordBallPotted initScoreManager "red").currentPlayer) :=
  ⟨(C4_endShot_contract initScoreManager).1 rfl,
   (C4_endShot_contract (recordBallPotted initScoreManager "red")).2 (by decide) (by decide)⟩

/-- recordBallPotted leaves the current player, the foul counter and the
shot-validity flag unchanged. -/
lemma recordBallPotted_proj (s : ScoreManager) (c : String) :
    (recordBallPotted s c).currentPlayer = s.currentPlayer ∧
    (recordBallPotted s c).stats.fouls = s.stats.fouls ∧
    (recordBallPotted s c).currentShot.isValid = s.currentShot.isValid := by
  unfold recordBallPotted addEvent
  dsimp only
  split_ifs <;> exact ⟨rfl, rfl, rfl⟩

/-- recordBallPotted score movement when player 1 is current: the ball
value goes to player 1 and player 2's score is untouched. -/
lemma recordBallPotted_scores_cp1 (s : ScoreManager) (c : String)
    (h : s.currentPlayer = 1) :
    (recordBallPotted s c).player1Score = s.player1Score + ballValues c ∧
    (recordBallPotted s c).player2Score = s.player2Score := by
  unfold recordBallPotted addEvent
  dsimp only
  split_ifs <;> simp_all

/-- recordBallPotted score movement when player 1 is not current. -/
lemma recordBallPotted_scores_cp2 (s : ScoreManager) (c : String)
    (h : ¬ s.currentPlayer = 1) :
    (recordBallPotted s c).player2Score = s.player2Score + ballValues c ∧
    (recordBallPotted s c).player1Score = s.player1Score := by
  unfold recordBallPotted addEvent
  dsimp only
  split_ifs <;> simp_all

/-- respotColoredBall only moves balls: the score manager, the
consecutive-coloured-pot counter, the last-potted colour and the placement
flag are untouched. -/
lemma respotColoredBall_proj (g : GameState) (b : Ball) :
    (respotColoredBall g b).scoreManager = g.scoreManager ∧
    (respotColoredBall g b).consecutiveColoredPotted = g.consecutiveColoredPotted ∧
    (respotColoredBall g b).lastPottedColor = g.lastPottedColor ∧
    (respotColoredBall g b).isPlacingCueBall = g.isPlacingCueBall := by
  unfold respotColoredBall
  split
  · exact ⟨rfl, rfl, rfl, rfl⟩
  · split
    · exact ⟨rfl, rfl, rfl, rfl⟩
    · exact ⟨rfl, rfl, rfl, rfl⟩

/-- handleBallPotted on the white cue ball reduces to: mark the ball
potted, flag cue-ball placement, record the foul, remember the last
potted colour. -/
lemma handleBallPotted_white (g : GameState) (b : Ball) (hw : b.colorName = "white") :
    handleBallPotted g b =
      { g with balls := markPotted g.balls b.id,
               scoreManager := recordFoul g.scoreManager "Cue ball potted" 4,
               isPlacingCueBall := true,
               lastPottedColor := some b.colorName } := by
  unfold handleBallPotted
  rw [hw]
  norm_num
  rw [if_neg (show ¬("white" : String) = "red" by decide)]
  exact ⟨rfl, rfl, rfl, rfl⟩

/-- handleBallPotted on a coloured ball, when the last potted ball was
also coloured and the consecutive counter is already at least 1: the
score manager goes through recordBallPotted then recordFoul, and the
counter increments. -/
lemma handleBallPotted_colored_foul (g : GameState) (b : Ball) (lc : String)
    (hcr : b.colorName ≠ "red") (hcw : b.colorName ≠ "white")
    (hl : g.lastPottedColor = some lc) (hlr : lc ≠ "red") (hlw : lc ≠ "white")
    (hc : 1 ≤ g.consecutiveColoredPotted) :
    (handleBallPotted g b).scoreManager =
      recordFoul (recordBallPotted g.scoreManager b.colorName)
        "Two consecutive colored balls potted" 4 ∧
    (handleBallPotted g b).consecutiveColoredPotted = g.consecutiveColoredPotted + 1 := by
  unfold handleBallPotted
  dsimp only
  rw [if_pos hcw, if_pos ⟨hcr, hcw⟩]
  dsimp only
  rw [hl]
  dsimp only
  rw [if_pos ⟨hlr, hlw⟩, if_pos (show 2 ≤ g.consecutiveColoredPotted + 1 by omega)]
  constructor
  · rw [(respotColoredBall_proj _ b).1]
  · rw [(respotColoredBall_proj _ b).2.1]

/-- C5, confirmed.  Game.checkPottedBalls skips any ball already marked
potted, so delivering a second capture event for an id already marked
potted leaves the whole game state (scores, break, counters, potted
flags) unchanged: delivering it twice is the same as delivering it
once, and it is never an error. -/
theorem C5_duplicate_pot_ignored (g : GameState) (i : String) (b : Ball)
    (hfind : g.balls.find? (fun bl => bl.id == i) = some b)
    (hpot : b.isPotted = true) :
    deliverPot g i = g := by
  unfold deliverPot
  rw [hfind]
  simp [hpot]

/-- C5 at a concrete input: a second pot event for the already-potted
pink is a no-op. -/
theorem C5_duplicate_pot_ignored_witness : deliverPot gPink "pink" = gPink :=
  C5_duplicate_pot_ignored gPink "pink" pottedPink rfl rfl

/-- C6, confirmed.  Potting the white cue ball records a foul awarding
exactly the standard minimum 4 points to the opponent (at least 4),
leaves the potting player's score unchanged (no pot points), switches the
current player, and sets the cue-ball-placement-pending flag. -/
theorem C6_cue_ball_pot_foul (g : GameState) (b : Ball) (hw : b.colorName = "white") :
    (handleBallPotted g b).isPlacingCueBall = true ∧
    (g.scoreManager.currentPlayer = 1 →
      (handleBallPotted g b).scoreManager.player2Score =
        g.scoreManager.player2Score + 4 ∧
      (handleBallPotted g b).scoreManager.player1Score =
        g.scoreManager.player1Score) ∧
    (g.scoreManager.currentPlayer = 2 →
      (handleBallPotted g b).scoreManager.player1Score =
        g.scoreManager.player1Score + 4 ∧
      (handleBallPotted g b).scoreManager.player2Score =
        g.scoreManager.player2Score) ∧
    (handleBallPotted g b).scoreManager.currentPlayer =
      (if g.scoreManager.currentPlayer = 1 then 2 else 1) ∧
    GameEvent.foul "Cue ball potted" g.scoreManager.currentPlayer 4 ∈
      (handleBallPotted g b).scoreManager.recentEvents := by
  rw [handleBallPotted_white g b hw]
  refine ⟨rfl, ?_, ?_, ?_, ?_⟩
  · intro h
    have hsc := recordFoul_scores_cp1 g.scoreManager "Cue ball potted" 4 h
    simpa using hsc
  · intro h
    have hsc := recordFoul_scores_cp2 g.scoreManager "Cue ball potted" 4 (by rw [h]; decide)
    simpa using hsc
  · exact recordFoul_currentPlayer g.scoreManager "Cue ball potted" 4
  · have hm := recordFoul_foul_mem g.scoreManager "Cue ball potted" 4
    simpa using hm

/-- A live cue ball sitting in the D. -/
def cueBallLive : Ball := mkBall 30 44.5 "white" "cue"

/-- A game state whose only ball is the live cue ball. -/
def gCue : GameState :=
  { balls := [cueBallLive], scoreManager := initScoreManager,
    consecutiveColoredPotted := 0, lastPottedColor := none,
    isPlacingCueBall := false }

/-- C6 at a concrete input: the cue ball of gCue is potted. -/
theorem C6_cue_ball_pot_foul_witness :
    (handleBallPotted gCue cueBallLive).isPlacingCueBall = true ∧
    (gCue.scoreManager.currentPlayer = 1 →
      (handleBallPotted gCue cueBallLive).scoreManager.player2Score =
        gCue.scoreManager.player2Score + 4 ∧
      (handleBallPotted gCue cueBallLive).scoreManager.player1Score =
        gCue.scoreManager.player1Score) ∧
    (gCue.scoreManager.currentPlayer = 2 →
      (handleBallPotted gCue cueBallLive).scoreManager.player1Score =
        gCue.scoreManager.player1Score + 4 ∧
      (handleBallPotted gCue cueBallLive).scoreManager.player2Score =
        gCue.scoreManager.player2Score) ∧
    (handleBallPotted gCue cueBallLive).scoreManager.currentPlayer =
      (if gCue.scoreManager.currentPlayer = 1 then 2 else 1) ∧
    GameEvent.foul "Cue ball potted" gCue.scoreManager.currentPlayer 4 ∈
      (handleBallPotted gCue cueBallLive).scoreManager.recentEvents :=
  C6_cue_ball_pot_foul gCue cueBallLive rfl

/-- Updating the list entry with a given id through an id-preserving map
moves through find? on that id. -/
lemma find?_map_update (i : String) (u : Ball → Ball) (hu : ∀ bl, (u bl).id = bl.id)
    (l : List Ball) (b : Ball)
    (h : l.find? (fun bl => bl.id == i) = some b) :
    (l.map fun bl => if bl.id == i then u bl else bl).find? (fun bl => bl.id == i) =
      some (u b) := by
  induction l with
  | nil => simp at h
  | cons a l ih =>
    rw [List.find?_cons] at h
    rw [List.map_cons, List.find?_cons]
    by_cases ha : (a.id == i) = true
    · rw [if_pos ha]
      rw [ha] at h
      rw [show ((u a).id == i) = true by rw [hu a]; exact ha]
      dsimp only at h ⊢
      injection h with h
      rw [h]
    · have hfa : (a.id == i) = false := by simpa using ha
      rw [if_neg ha]
      rw [hfa] at h ⊢
      dsimp only at h ⊢
      exact ih h

/-- C7, counterexample.  Pot then respot the pink: the layout places pink
at (125.056, 44.5) (one ball diameter left of the red apex), but
respotColoredBall re-creates it at the fixed respot spot (141, 44.5), a
different coordinate, even though the spot is free. -/
theorem C7_counterexample :
    layoutSpot "pink" = some (125.056, 44.5) ∧
    (respotColoredBall gPink pottedPink).balls =
      [{ id := "pink", colorName := "pink", x := 141, y := 44.5, isPotted := false }] ∧
    (141 : ℚ) ≠ 125.056 := by
  refine ⟨?_, ?_, by norm_num⟩
  · norm_num [layoutSpot, coloredBallsLayout, mkBall, pinkLayoutX, redApexX, ballDiameter]
  · have hval : isValidPosition gPink.balls 141 44.5 = true := by
      norm_num [isValidPosition, gPink, pottedPink, dist2, minDistance]
    unfold respotColoredBall
    have hsp : respotSpots pottedPink.colorName = some ((141 : ℚ), (44.5 : ℚ)) := rfl
    rw [hsp]
    dsimp only
    rw [if_pos hval]
    rfl

/-- C7, amended.  respotColoredBall re-creates a potted colour's body
exactly at that colour's fixed respot spot whenever the spot passes
isValidPlacement at respot time, and otherwise leaves the state unchanged
(so a later attempt, once the spot frees, succeeds); the respot spot
coincides with the layout coordinate for every colour except pink, whose
layout position (125.056, 44.5) differs from its respot spot
(141, 44.5). -/
theorem C7_respot_at_fixed_spot (g : GameState) (b : Ball) (sx sy : ℚ)
    (hspot : respotSpots b.colorName = some (sx, sy))
    (hfind : g.balls.find? (fun bl => bl.id == b.id) = some b) :
    (isValidPosition g.balls sx sy = true →
      (respotColoredBall g b).balls.find? (fun bl => bl.id == b.id) =
        some { b with isPotted := false, x := sx, y := sy }) ∧
    (isValidPosition g.balls sx sy = false → respotColoredBall g b = g) ∧
    (b.colorName ≠ "pink" → layoutSpot b.colorName = some (sx, sy)) := by
  refine ⟨?_, ?_, ?_⟩
  · intro hv
    unfold respotColoredBall
    rw [hspot]
    dsimp only
    rw [if_pos hv]
    dsimp only
    exact find?_map_update b.id
      (fun bl => { bl with isPotted := false, x := sx, y := sy })
      (fun bl => rfl) g.balls b hfind
  · intro hv
    unfold respotColoredBall
    rw [hspot]
    dsimp only
    rw [if_neg (by simp [hv])]
  · intro hp
    unfold respotSpots at hspot
    split at hspot
    · rename_i heq
      injection hspot with he
      rw [heq, ← he]
      rfl
    · rename_i heq
      injection hspot with he
      rw [heq, ← he]
      rfl
    · rename_i heq
      injection hspot with he
      rw [heq, ← he]
      rfl
    · rename_i heq
      injection hspot with he
      rw [heq, ← he]
      rfl
    · rename_i heq
      exact absurd heq hp
    · rename_i heq
      injection hspot with he
      rw [heq, ← he]
      rfl
    · simp at hspot

/-- C7 at a concrete input: respotting the potted pink of gPink, whose
spot is free, re-enters it at (141, 44.5). -/
theorem C7_respot_at_fixed_spot_witness :
    (respotColoredBall gPink pottedPink).balls.find?
        (fun bl => bl.id == pottedPink.id) =
      some { pottedPink with isPotted := false, x := 141, y := 44.5 } :=
  (C7_respot_at_fixed_spot gPink pottedPink 141 44.5 rfl rfl).1
    (by norm_num [isValidPosition, gPink, pottedPink, dist2, minDistance])

/-- C10, confirmed.  Potting a non-red non-white colour when the
immediately preceding potted ball (tracked across shots) was also a
non-red non-white colour increments the consecutive-coloured-pot counter
to at least 2, and that triggers the full foul routine within the same
delivery: the foul counter increments, the opponent receives exactly 4
penalty points on top of any score, the current player is switched, and
the points for the coloured pot itself remain with the player who potted
it. -/
theorem C10_consecutive_colored_foul (g : GameState) (b : Ball) (lc : String)
    (hcr : b.colorName ≠ "red") (hcw : b.colorName ≠ "white")
    (hl : g.lastPottedColor = some lc) (hlr : lc ≠ "red") (hlw : lc ≠ "white")
    (hc : 1 ≤ g.consecutiveColoredPotted) :
    (handleBallPotted g b).consecutiveColoredPotted = g.consecutiveColoredPotted + 1 ∧
    2 ≤ (handleBallPotted g b).consecutiveColoredPotted ∧
    (handleBallPotted g b).scoreManager.stats.fouls = g.scoreManager.stats.fouls + 1 ∧
    (g.scoreManager.currentPlayer = 1 →
      (handleBallPotted g b).scoreManager.player1Score =
        g.scoreManager.player1Score + ballValues b.colorName ∧
      (handleBallPotted g b).scoreManager.player2Score =
        g.scoreManager.player2Score + 4) ∧
    (g.scoreManager.currentPlayer = 2 →
      (handleBallPotted g b).scoreManager.player2Score =
        g.scoreManager.player2Score + ballValues b.colorName ∧
      (handleBallPotted g b).scoreManager.player1Score =
        g.scoreManager.player1Score + 4) ∧
    (handleBallPotted g b).scoreManager.currentPlayer =
      (if g.scoreManager.currentPlayer = 1 then 2 else 1) := by
  obtain ⟨hsm, hcc⟩ := handleBallPotted_colored_foul g b lc hcr hcw hl hlr hlw hc
  rw [hsm, hcc]
  have hbp := recordBallPotted_proj g.scoreManager b.colorName
  refine ⟨rfl, by omega, ?_, ?_, ?_, ?_⟩
  · rw [(recordFoul_stats _ _ _).2.1, hbp.2.1]
  · intro h
    have hcp1 : (recordBallPotted g.scoreManager b.colorName).currentPlayer = 1 := by
      rw [hbp.1, h]
    have hf := recordFoul_scores_cp1 (recordBallPotted g.scoreManager b.colorName)
      "Two consecutive colored balls potted" 4 hcp1
    have hb := recordBallPotted_scores_cp1 g.scoreManager b.colorName h
    constructor
    · rw [hf.2, hb.1]
    · rw [hf.1, hb.2]
      simp
  · intro h
    have hcp2 : ¬ (recordBallPotted g.scoreManager b.colorName).currentPlayer = 1 := by
      rw [hbp.1, h]
      decide
    have hf := recordFoul_scores_cp2 (recordBallPotted g.scoreManager b.colorName)
      "Two consecutive colored balls potted" 4 hcp2
    have hb := recordBallPotted_scores_cp2 g.scoreManager b.colorName (by rw [h]; decide)
    constructor
    · rw [hf.2, hb.1]
    · rw [hf.1, hb.2]
      simp
  · rw [recordFoul_currentPlayer, hbp.1]

/-- A live pink ball in open table space. -/
def pinkLive : Ball := mkBall 120 20 "pink" "pink"

/-- A state where the blue was the last potted ball and the
consecutive-coloured-pot counter stands at 1. -/
def gBlueThenPink : GameState :=
  { balls := [pinkLive], scoreManager := initScoreManager,
    consecutiveColoredPotted := 1, lastPottedColor := some "blue",
    isPlacingCueBall := false }

/-- C10 at a concrete input: potting the pink right after the blue. -/
theorem C10_consecutive_colored_foul_witness :
    (handleBallPotted gBlueThenPink pinkLive).consecutiveColoredPotted =
      gBlueThenPink.consecutiveColoredPotted + 1 ∧
    2 ≤ (handleBallPotted gBlueThenPink pinkLive).consecutiveColoredPotted ∧
    (handleBallPotted gBlueThenPink pinkLive).scoreManager.stats.fouls =
      gBlueThenPink.scoreManager.stats.fouls + 1 ∧
    (gBlueThenPink.scoreManager.currentPlayer = 1 →
      (handleBallPotted gBlueThenPink pinkLive).scoreManager.player1Score =
        gBlueThenPink.scoreManager.player1Score + ballValues pinkLive.colorName ∧
      (handleBallPotted gBlueThenPink pinkLive).scoreManager.player2Score =
        gBlueThenPink.scoreManager.player2Score + 4) ∧
    (gBlueThenPink.scoreManager.currentPlayer = 2 →
      (handleBallPotted gBlueThenPink pinkLive).scoreManager.player2Score =
        gBlueThenPink.scoreManager.player2Score + ballValues pinkLive.colorName ∧
      (handleBallPotted gBlueThenPink pinkLive).scoreManager.player1Score =
        gBlueThenPink.scoreManager.player1Score + 4) ∧
    (handleBallPotted gBlueThenPink pinkLive).scoreManager.currentPlayer =
      (if gBlueThenPink.scoreManager.currentPlayer = 1 then 2 else 1) :=
  C10_consecutive_colored_foul gBlueThenPink pinkLive "blue"
    (by decide) (by decide) rfl (by decide) (by decide) (by decide)

end Snooker
